import Mathlib

/-!
Verification of the tllm terminal chat client against its specification.

The development shallowly embeds the relevant parts of `src/display.rs` and
`src/network.rs`:

* `WrappedText` (display.rs) is modelled at the byte level: `content` is the
  list of UTF-8 bytes of the Rust `String` (each entry < 256), `line_lengths`,
  `page` and `window_size` are as in the struct.  Every operation that can
  panic in Rust (out-of-bounds index, non-boundary slice) returns `Option`,
  `none` marking the panic.
* `ChatState.rewrap` (display.rs) iterates over `chars()` of the content, so
  it is modelled on `List Char`, with `Char.utf8Size` playing the role of
  Rust's `char::len_utf8`.  Byte lengths of strings are sums of `utf8Size`.
* The streaming decoders `process_openai_stream` / `process_anthropic_stream`
  and the chunked-body decoder in `prompt` (network.rs) are modelled as pure
  functions over the list of SSE lines (resp. the list of body bytes).
  `serde_json::from_str` is an external library; it is passed in as an
  abstract `parse : String → Option JValue` parameter, while serde's
  `Value` indexing and `Display` printing are modelled concretely by
  `jGet` / `jIdx` / `jToString`.
-/

namespace Tllm

/-! ## Byte-level model of `WrappedText` (display.rs, lines 22-165) -/

structure WrappedText where
  content : List Nat
  line_lengths : List Nat
  page : Nat
  window_size : Nat × Nat
deriving DecidableEq, Repr

/-- Model of `WrappedText::is_byte_boundary` (display.rs 30-34).
`offset == 0 || offset == self.content.len() || (bytes[offset] & 0xC0) != 0x80`.
The short-circuit `||` means `bytes[offset]` is only evaluated when
`offset` is neither `0` nor `len`; for `offset > len` that index panics,
modelled by `none`. -/
def isByteBoundary? (content : List Nat) (offset : Nat) : Option Bool :=
  if offset = 0 then some true
  else if offset = content.length then some true
  else
    match content.get? offset with
    | some b => some (b &&& 0xC0 != 0x80)
    | none => none

/-- Model of `WrappedText::find_prev_byte_boundary` (display.rs 36-42):
`while offset > 0 && !is_byte_boundary(offset) { offset -= 1 }`. -/
def findPrevByteBoundary (content : List Nat) : Nat → Option Nat
  | 0 => some 0
  | offset + 1 =>
    match isByteBoundary? content (offset + 1) with
    | none => none
    | some true => some (offset + 1)
    | some false => findPrevByteBoundary content offset

/-- Loop body of `WrappedText::find_next_byte_boundary` (display.rs 44-50):
`while offset < self.content.len() && !is_byte_boundary(offset) { offset += 1 }`.
The loop advances by one while below `content.len()`, so it runs at most
`content.length` times; `fuel` is initialised to that bound and never runs
out on the reachable states.  The boundary check is only made with
`offset < len`, where it cannot panic. -/
def findNextByteBoundaryGo (content : List Nat) : Nat → Nat → Nat
  | 0, offset => offset
  | fuel + 1, offset =>
    if offset < content.length then
      if (isByteBoundary? content offset).getD true then offset
      else findNextByteBoundaryGo content fuel (offset + 1)
    else offset

def findNextByteBoundary (content : List Nat) (offset : Nat) : Nat :=
  findNextByteBoundaryGo content content.length offset

/-- Model of `WrappedText::get_flat` (display.rs 52-62).  The loop
`for l in 0..line { offset += self.line_lengths[l] }` indexes
`line_lengths[l]` for every `l < line` and hence panics when
`line > line_lengths.len()`. -/
def getFlat (w : WrappedText) (line : Nat) (column : Nat)
    (previousByteBoundary : Bool) : Option Nat :=
  if line ≤ w.line_lengths.length then
    let offset := column + (w.line_lengths.take line).sum
    if previousByteBoundary then findPrevByteBoundary w.content offset
    else some (findNextByteBoundary w.content offset)
  else none

/-- Byte-level model of `str::replace("\t", "    ")` used by
`WrappedText::insert` (display.rs 92): each tab byte 9 becomes four
spaces. -/
def sanitizeTabs : List Nat → List Nat
  | [] => []
  | b :: bs => (if b = 9 then [32, 32, 32, 32] else [b]) ++ sanitizeTabs bs

/-- Model of `WrappedText::insert` (display.rs 89-99).  When the flat offset is below
`content.len()` the Rust code calls `insert_str(offset, ..)`; that offset
came from `find_next_byte_boundary`, which only stops below `len` on a
boundary, so the insertion itself cannot panic. -/
def WrappedText.insert (w : WrappedText) (substring : List Nat)
    (line column : Nat) : Option WrappedText :=
  match getFlat w line (column + if 0 < line then 1 else 0) false with
  | none => none
  | some offset =>
    let sanitized := sanitizeTabs substring
    if w.content.length ≤ offset then
      some { w with content := w.content ++ sanitized }
    else
      some { w with content := w.content.take offset ++ sanitized ++ w.content.drop offset }

/-- Model of `WrappedText::page_up` (display.rs 105-111). -/
def WrappedText.page_up (w : WrappedText) : WrappedText :=
  if w.window_size.2 ≤ w.page then { w with page := w.page - w.window_size.2 }
  else { w with page := 0 }

/-- Model of `WrappedText::page_down` (display.rs 113-115): `self.page += self.window_size.1`,
with no clamping (the source comments that clamping is left to the render loop). -/
def WrappedText.page_down (w : WrappedText) : WrappedText :=
  { w with page := w.page + w.window_size.2 }

/-- Model of `u8::is_ascii_whitespace`: space, tab, newline, form feed, carriage return. -/
def isAsciiWhitespaceByte (b : Nat) : Bool :=
  b = 32 || b = 9 || b = 10 || b = 12 || b = 13

/-- Backward scan of `WrappedText::delete_word` (display.rs 127-131):
`while begin > 0 && (!is_byte_boundary(begin) || !bytes[begin].is_ascii_whitespace())`.
By short-circuiting, `bytes[begin]` is only read when the boundary test
succeeded; reading it at `begin = len` panics (`none`). -/
def deleteScan (content : List Nat) : Nat → Option Nat
  | 0 => some 0
  | b + 1 =>
    match isByteBoundary? content (b + 1) with
    | none => none
    | some bd =>
      if bd then
        match content.get? (b + 1) with
        | none => none
        | some byte =>
          if isAsciiWhitespaceByte byte then some (b + 1)
          else deleteScan content b
      else deleteScan content b

/-- Model of `WrappedText::delete_word` (display.rs 117-134).  Returns the drained
substring together with the updated buffer.  `line_lengths[line]` panics when
`line ≥ line_lengths.len()`; `String::drain(begin..end)` panics when `end`
exceeds the length or is not a char boundary (`begin` is a boundary by
construction of the scan). -/
def WrappedText.delete_word (w : WrappedText) (line column : Nat) :
    Option (List Nat × WrappedText) :=
  match getFlat w line column true with
  | none => none
  | some end0 =>
    if end0 = 0 then some ([], w)
    else
      match w.line_lengths.get? line with
      | none => none
      | some ll =>
        let endPos := if column < ll then end0 + 1 else end0
        match deleteScan w.content (endPos - 1) with
        | none => none
        | some beginPos =>
          if endPos ≤ w.content.length ∧
              (isByteBoundary? w.content endPos).getD false = true then
            some ((w.content.drop beginPos).take (endPos - beginPos),
              { w with content := w.content.take beginPos ++ w.content.drop endPos })
          else none

/-- Bytes trimmed like Rust `str::trim` restricted to ASCII whitespace
(the claims only exercise ASCII content; `char::is_whitespace` agrees with
this on ASCII). -/
def isUnicodeWsByte (b : Nat) : Bool :=
  b = 9 || b = 10 || b = 11 || b = 12 || b = 13 || b = 32

def rustTrimBytes (l : List Nat) : List Nat :=
  ((l.dropWhile isUnicodeWsByte).reverse.dropWhile isUnicodeWsByte).reverse

/-- Model of `WrappedText::display` (display.rs 136-155).  The first loop indexes
`line_lengths[p]` for `p < page` (panic when `page > line_lengths.len()`);
the final slice `&content[begin..end]` panics when `end > len` (its `begin`
is always a snapped boundary and `begin ≤ end` holds structurally). -/
def WrappedText.display (w : WrappedText) : Option (List Nat) :=
  if w.line_lengths.length = 0 then some []
  else if w.page ≤ w.line_lengths.length then
    let b0 := (w.line_lengths.take w.page).sum
    let e0 := b0 + (w.line_lengths.drop w.page).sum
    match findPrevByteBoundary w.content b0 with
    | none => none
    | some b =>
      let e := findNextByteBoundary w.content e0
      if e ≤ w.content.length then
        some (rustTrimBytes ((w.content.drop b).take (e - b)))
      else none
  else none

/-- Model of `WrappedText::len` (display.rs 157-159). -/
def WrappedText.len (w : WrappedText) : Nat := w.content.length

/-- Model of `WrappedText::clear` (display.rs 161-164). -/
def WrappedText.clear (w : WrappedText) : WrappedText :=
  { w with content := [], line_lengths := [] }

/-- Bytes of an ASCII string (every scalar value below 128 is its own
UTF-8 byte). -/
def asciiBytes (s : String) : List Nat := s.data.map Char.toNat

/-! ## Char-level model of `ChatState::rewrap` (display.rs 184-214)

The Rust loop iterates over `content.chars()`, so the model works on
`List Char`.  The loop state is `(wrapped_content, lengths, column)`.
`column as u16 >= window.width - 2` is modelled as `width - 2 ≤ column`
in `Nat`, which agrees with the `u16` arithmetic for `width ≥ 2` (the
spec constrains widths to `W ≥ 4`).  Note the source adds `c.len_utf8()`
to `column` for every character, including `'\n'`. -/

def rewrapStep (width : Nat) (c : Char) (st : List Char × List Nat × Nat) :
    List Char × List Nat × Nat :=
  let st1 :=
    if c = '\n' ∨ width - 2 ≤ st.2.2 then (st.1 ++ ['\n'], st.2.1 ++ [st.2.2], 0)
    else st
  let st2 := if c ≠ '\n' then (st1.1 ++ [c], st1.2.1, st1.2.2) else st1
  (st2.1, st2.2.1, st2.2.2 + c.utf8Size)

def rewrapGo (width : Nat) : List Char → List Char × List Nat × Nat → List Char × List Nat
  | [], st => (st.1, if 0 < st.2.2 then st.2.1 ++ [st.2.2] else st.2.1)
  | c :: cs, st => rewrapGo width cs (rewrapStep width c st)

/-- Model of `ChatState::rewrap` (display.rs 184-214), as a function of the viewport
width and the pre-wrap content; returns the new `(content, line_lengths)`. -/
def ChatState.rewrap (width : Nat) (content : List Char) : List Char × List Nat :=
  rewrapGo width content ([], [], 0)

/-- Byte length of a `String`'s chars, i.e. Rust's `str::len`. -/
def byteLen (l : List Char) : Nat := (l.map Char.utf8Size).sum

/-- Whether byte offset `n` into the UTF-8 encoding of the char list lies on
a code-point boundary (the end of the string counts as a boundary). -/
def isUtf8BoundaryChars : List Char → Nat → Bool
  | _, 0 => true
  | [], _ + 1 => false
  | c :: cs, n + 1 =>
    if n + 1 < c.utf8Size then false
    else isUtf8BoundaryChars cs (n + 1 - c.utf8Size)

/-! ## Helper lemmas about `rewrapGo` -/

theorem rewrapGo_snd_ne_nil (width : Nat) :
    ∀ (cs : List Char) (st : List Char × List Nat × Nat),
      0 < st.2.2 ∨ st.2.1 ≠ [] → (rewrapGo width cs st).2 ≠ [] := by
  intro cs
  induction cs with
  | nil =>
    intro st h
    rcases h with h | h
    · simp [rewrapGo, h]
    · by_cases hc : 0 < st.2.2 <;> simp [rewrapGo, hc, h]
  | cons c cs ih =>
    intro st _
    apply ih
    left
    have := c.utf8Size_pos
    dsimp only [rewrapStep]
    exact Nat.lt_of_lt_of_le this (Nat.le_add_left _ _)

theorem rewrapGo_snd_sum (width : Nat) :
    ∀ (cs : List Char) (st : List Char × List Nat × Nat),
      ((rewrapGo width cs st).2).sum = st.2.1.sum + st.2.2 + byteLen cs := by
  intro cs
  induction cs with
  | nil =>
    intro st
    by_cases hc : 0 < st.2.2 <;> simp [rewrapGo, byteLen, hc] <;> omega
  | cons c cs ih =>
    intro st
    have hstep : (rewrapStep width c st).2.1.sum + (rewrapStep width c st).2.2 =
        st.2.1.sum + st.2.2 + c.utf8Size := by
      dsimp only [rewrapStep]
      split <;> split <;> (try simp [List.sum_append]) <;> omega
    calc ((rewrapGo width (c :: cs) st).2).sum
        = (rewrapStep width c st).2.1.sum + (rewrapStep width c st).2.2 + byteLen cs := by
          simpa [rewrapGo] using ih (rewrapStep width c st)
      _ = st.2.1.sum + st.2.2 + byteLen (c :: cs) := by
          simp [byteLen] at *
          omega

/-! ## Safety lemmas for `find_prev_byte_boundary` / `find_next_byte_boundary` -/

theorem findPrevByteBoundary_isSome (content : List Nat) :
    ∀ offset : Nat, offset ≤ content.length →
      (findPrevByteBoundary content offset).isSome := by
  intro offset
  induction offset with
  | zero => intro _; simp [findPrevByteBoundary]
  | succ n ih =>
    intro h
    have hb : (isByteBoundary? content (n + 1)).isSome := by
      unfold isByteBoundary?
      by_cases h0 : n + 1 = content.length
      · simp [h0]
      · have hlt : n + 1 < content.length := lt_of_le_of_ne h h0
        have hg : content[n + 1]? = some content[n + 1] :=
          List.getElem?_eq_getElem hlt
        simp [h0, hg]
    unfold findPrevByteBoundary
    rcases hcase : isByteBoundary? content (n + 1) with _ | b
    · rw [hcase] at hb; simp at hb
    · cases b
      · simpa using ih (Nat.le_of_succ_le h)
      · simp

theorem findNextByteBoundaryGo_le (content : List Nat) :
    ∀ (fuel offset : Nat), offset ≤ content.length →
      findNextByteBoundaryGo content fuel offset ≤ content.length := by
  intro fuel
  induction fuel with
  | zero => intro offset h; simpa [findNextByteBoundaryGo] using h
  | succ n ih =>
    intro offset h
    unfold findNextByteBoundaryGo
    split
    · split
      · assumption
      · exact ih (offset + 1) (by omega)
    · assumption

/-! ## Claim C1 -/

/-- Claim C1 counterexample: the claim says no public `TextBuffer` operation
panics for any `(line, column)` argument on well-formed UTF-8 content, yet
`delete_word(1, 0)` on the single-line ASCII buffer `"a"` (with
`line_lengths = [1]`) indexes `line_lengths[1]` out of bounds and panics
(modelled by `none`). -/
theorem c1_counterexample :
    WrappedText.delete_word ⟨asciiBytes "a", [1], 0, (10, 5)⟩ 1 0 = none := by
  decide

/-- Claim C1 (amended): `display` returns without panicking whenever the page
index is at most the number of visual lines and the sum of `line_lengths`
stays within the content's byte length; operations taking a line or page
argument beyond the `line_lengths` table can panic (see the counterexample),
while `clear`, `len`, `page_up` and `page_down` are total. -/
theorem c1_amended_display_no_panic (w : WrappedText)
    (h1 : w.page ≤ w.line_lengths.length)
    (h2 : w.line_lengths.sum ≤ w.content.length) :
    (WrappedText.display w).isSome = true := by
  have hsum := List.sum_take_add_sum_drop w.line_lengths w.page
  have hb0 : (w.line_lengths.take w.page).sum ≤ w.content.length := by omega
  have he0 : (w.line_lengths.take w.page).sum + (w.line_lengths.drop w.page).sum
      ≤ w.content.length := by omega
  have hle := findNextByteBoundaryGo_le w.content w.content.length _ he0
  have hprev := findPrevByteBoundary_isSome w.content _ hb0
  unfold WrappedText.display
  by_cases hz : w.line_lengths.length = 0
  · simp [hz]
  · rw [if_neg hz, if_pos h1]
    rcases hp : findPrevByteBoundary w.content ((w.line_lengths.take w.page).sum)
      with _ | b
    · rw [hp] at hprev; simp at hprev
    · simp only [hp, findNextByteBoundary]
      rw [if_pos hle]
      simp

/-- Claim C1 witness: a concrete in-range buffer on which the amended theorem
applies. -/
theorem c1_witness :
    (WrappedText.display ⟨asciiBytes "a", [1], 0, (10, 5)⟩).isSome = true :=
  c1_amended_display_no_panic ⟨asciiBytes "a", [1], 0, (10, 5)⟩
    (by decide) (by decide)

/-! ## Claim C4 -/

/-- Claim C4 counterexample: `page_down` on a one-line buffer with viewport
height 5 moves `page` from 0 to 5, far past the final window (for a single
visual line every page index above 0 is past the last window; the render
loop's own clamp would be `line_lengths.len - (height - 2) = 0`).  So
`page_down` is not clamped to `[0, max_page]`. -/
theorem c4_counterexample :
    (WrappedText.page_down ⟨asciiBytes "a", [1], 0, (10, 5)⟩).page = 5 ∧
    ¬ (WrappedText.page_down ⟨asciiBytes "a", [1], 0, (10, 5)⟩).page ≤
        ([1] : List Nat).length - (5 - 2) := by
  decide

/-- Claim C4 (amended): `page_up` shifts `page` down by the viewport height,
clamped below at 0 (in `Nat`, `page - height`); `page_down` adds the viewport
height to `page` with no upper clamp — clamping past the final window is
deferred to the render loop, not done by `page_down` itself. -/
theorem c4_amended_paging (w : WrappedText) :
    (WrappedText.page_up w).page = w.page - w.window_size.2 ∧
    (WrappedText.page_down w).page = w.page + w.window_size.2 := by
  constructor
  · unfold WrappedText.page_up
    split
    · rfl
    · simp only
      omega
  · rfl

/-! ## Claim C5 -/

/-- Claim C5 counterexample: rewrapping the empty content leaves
`line_lengths` empty — there is no trailing (possibly empty) entry, contrary
to the claim that the table always has at least one entry. -/
theorem c5_counterexample :
    (ChatState.rewrap 10 ([] : List Char)).2 = [] ∧
    ¬ 1 ≤ (ChatState.rewrap 10 ([] : List Char)).2.length := by
  decide

/-- Claim C5 (amended): after a rewrap, `line_lengths` is empty exactly when
the content is empty; for every nonempty content — including content ending
in a newline — it has at least one entry. -/
theorem c5_amended_line_lengths_nonempty (width : Nat) (content : List Char) :
    (ChatState.rewrap width content).2 = [] ↔ content = [] := by
  constructor
  · intro h
    cases content with
    | nil => rfl
    | cons c cs =>
      exfalso
      apply rewrapGo_snd_ne_nil width cs (rewrapStep width c ([], [], 0)) _ h
      left
      have := c.utf8Size_pos
      dsimp only [rewrapStep]
      exact Nat.lt_of_lt_of_le this (Nat.le_add_left _ _)
  · intro h
    subst h
    rfl

/-! ## Claim C6 -/

/-- Claim C6 counterexample, hitting both conjuncts of the claim.
First, for content `"a\n"` at width 10 the sum of `line_lengths` plus one
byte per line break does not equal the stored content's byte length
(`rewrap` counts the newline's byte into the following line's length, so
`[1, 1]` sums to 2, plus 1 break, against a stored length of 2).
Second, for content `"ééé"` at width 4 the visual-line boundary offset
obtained by summing the first two line lengths (2 + 2 = 4) falls in the
middle of a two-byte code point of the stored content `"é\né\né"`. -/
theorem c6_counterexample :
    ((ChatState.rewrap 10 ['a', '\n']).2.sum +
        (ChatState.rewrap 10 ['a', '\n']).1.count '\n' ≠
      byteLen (ChatState.rewrap 10 ['a', '\n']).1) ∧
    isUtf8BoundaryChars (ChatState.rewrap 4 ['é', 'é', 'é']).1
        (((ChatState.rewrap 4 ['é', 'é', 'é']).2.take 2).sum) = false := by
  decide

/-- Claim C6 (amended): for every content string and viewport width, the sum
of the `line_lengths` produced by `rewrap` equals the byte length of the
pre-wrap content (each hard newline's byte is counted inside the following
line's length, and the newlines inserted for width-forced breaks are counted
in no length, so the claimed `sum + one byte per break` overcounts hard
newlines); boundary offsets need not land on UTF-8 boundaries of the stored
content. -/
theorem c6_amended_length_invariant (width : Nat) (content : List Char) :
    (ChatState.rewrap width content).2.sum = byteLen content := by
  simpa using rewrapGo_snd_sum width content ([], [], 0)

/-! ## Claim C7 -/

/-- Claim C7 counterexample: on the buffer whose content is exactly
`"hello "` on a single visual line, `delete_word(0, 5)` does not remove the
5-byte word `"hello"` — the backward scan stops at the first whitespace byte
it inspects, which is the space itself. -/
theorem c7_counterexample :
    WrappedText.delete_word ⟨asciiBytes "hello ", [6], 0, (80, 24)⟩ 0 5 ≠
      some (asciiBytes "hello", ⟨asciiBytes " ", [6], 0, (80, 24)⟩) := by
  decide

/-- Claim C7 (amended): after `insert("hello ", 0, 0)` into an empty buffer the
content is `"hello "`; on that single-line buffer `delete_word(0, 5)` removes
and returns only the single trailing space `" "` (1 byte), leaving `"hello"` —
it does not invert the insert. -/
theorem c7_amended_delete_word_result :
    WrappedText.insert ⟨[], [], 0, (80, 24)⟩ (asciiBytes "hello ") 0 0 =
      some ⟨asciiBytes "hello ", [], 0, (80, 24)⟩ ∧
    WrappedText.delete_word ⟨asciiBytes "hello ", [6], 0, (80, 24)⟩ 0 5 =
      some (asciiBytes " ", ⟨asciiBytes "hello", [6], 0, (80, 24)⟩) := by
  decide

/-! ## Outcome model of `prompt_stream` and the chat spawn handler
(network.rs 396-438, display.rs 478-490)

`prompt_stream` performs, in order: `TcpStream::connect(..).expect(..)`,
`TlsConnector::connect(..).expect(..)`, `write_all(..).expect(..)` /
`flush().expect(..)`, then the stream processor, whose `Err` is logged and
returned with `return Err(e)`.  Each external effect that Rust unwraps with
`expect` is modelled as an `Option Unit` argument (`none` = failure); the
stream processor as an `Except Unit String`.  An `expect` on a failure
panics the worker thread, which is a distinct outcome from returning
`Err` to the caller. -/

inductive WorkerOutcome where
  | ok : WorkerOutcome
  | err : WorkerOutcome
  | panicked : WorkerOutcome
deriving DecidableEq, Repr

def promptStream (connectResult : Option Unit) (tlsResult : Option Unit)
    (writeResult : Option Unit) (processResult : Except Unit String) :
    WorkerOutcome :=
  match connectResult with
  | none => WorkerOutcome.panicked
  | some _ =>
    match tlsResult with
    | none => WorkerOutcome.panicked
    | some _ =>
      match writeResult with
      | none => WorkerOutcome.panicked
      | some _ =>
        match processResult with
        | Except.error _ => WorkerOutcome.err
        | Except.ok _ => WorkerOutcome.ok

/-- How the worker thread spawned by `chat` (display.rs 478-490) ends:
`Ok(_) => {}` finishes the thread; `Err(e)` logs and calls
`std::process::exit(1)`, ending the whole process; a panic inside
`prompt_stream` unwinds only that thread (the render loop keeps running but
is never told anything). -/
inductive ThreadEnd where
  | finished : ThreadEnd
  | processExit : ThreadEnd
  | panickedThread : ThreadEnd
deriving DecidableEq, Repr

def chatWorkerThread (r : WorkerOutcome) : ThreadEnd :=
  match r with
  | WorkerOutcome.ok => ThreadEnd.finished
  | WorkerOutcome.err => ThreadEnd.processExit
  | WorkerOutcome.panicked => ThreadEnd.panickedThread

/-! ## Claim C2 -/

/-- Claim C2 counterexample: with the TCP connect failing (everything else
fine), `prompt_stream` panics via `expect` instead of returning an error to
its caller — the claimed recoverable error return does not happen. -/
theorem c2_counterexample :
    promptStream none (some ()) (some ()) (Except.ok "") =
      WorkerOutcome.panicked ∧
    promptStream none (some ()) (some ()) (Except.ok "") ≠
      WorkerOutcome.err ∧
    chatWorkerThread (promptStream none (some ()) (some ()) (Except.ok "")) ≠
      ThreadEnd.finished := by
  decide

/-- Claim C2 (amended): a TCP connect or TLS handshake failure does not
surface as an error: `prompt_stream` panics the worker thread via `expect`
(only that thread dies; the render loop is never notified); and when a
stream-processing failure after the handshake does make `prompt_stream`
return `Err`, the spawn handler in `chat` terminates the whole process with
`exit(1)` — in neither case is the failure reported recoverably. -/
theorem c2_amended_failure_semantics (tls wr : Option Unit)
    (p : Except Unit String) (e : Unit) :
    promptStream none tls wr p = WorkerOutcome.panicked ∧
    promptStream (some ()) none wr p = WorkerOutcome.panicked ∧
    chatWorkerThread
        (promptStream (some ()) (some ()) (some ()) (Except.error e)) =
      ThreadEnd.processExit := by
  exact ⟨rfl, rfl, rfl⟩

/-! ## Model of the chunked-body decoder in `prompt` (network.rs 486-506)

The loop reads a size line with `read_line`, parses it as hex after
`trim()`, stops at size 0, reads exactly that many bytes with `read_exact`
and discards one more line (the chunk's trailing CRLF).  Input is the list
of body bytes after the headers.  `read_line` at EOF yields an empty line,
which `from_str_radix` rejects (`Err`, modelled `none`); `read_exact` past
EOF also fails.  Each iteration consumes at least one byte, so
`input.length + 1` rounds of fuel are never exhausted. -/

def readLineBytes : List Nat → List Nat × List Nat
  | [] => ([], [])
  | b :: bs =>
    if b = 10 then ([10], bs)
    else
      let r := readLineBytes bs
      (b :: r.1, r.2)

def hexDigitVal? (b : Nat) : Option Nat :=
  if 48 ≤ b ∧ b ≤ 57 then some (b - 48)
  else if 97 ≤ b ∧ b ≤ 102 then some (b - 87)
  else if 65 ≤ b ∧ b ≤ 70 then some (b - 55)
  else none

def parseHexGo : List Nat → Nat → Option Nat
  | [], acc => some acc
  | b :: bs, acc =>
    match hexDigitVal? b with
    | none => none
    | some d => parseHexGo bs (acc * 16 + d)

/-- Model of `usize::from_str_radix(s.trim(), 16)`: rejects the empty string,
otherwise folds hex digits. -/
def parseHex? (l : List Nat) : Option Nat :=
  if l.isEmpty then none else parseHexGo l 0

def decodeChunkedLoop : Nat → List Nat → List Nat → Option (List Nat)
  | 0, _, _ => none
  | fuel + 1, input, buffer =>
    let r := readLineBytes input
    match parseHex? (rustTrimBytes r.1) with
    | none => none
    | some 0 => some buffer
    | some (n + 1) =>
      if n + 1 ≤ r.2.length then
        decodeChunkedLoop fuel ((readLineBytes (r.2.drop (n + 1))).2)
          (buffer ++ r.2.take (n + 1))
      else none

def decodeChunked (input : List Nat) : Option (List Nat) :=
  decodeChunkedLoop (input.length + 1) input []

/-! ## Claim C9 -/

/-- Claim C9: the chunked-body decoder, fed the chunk sequence
`"5\r\nHello\r\n"`, `"6\r\n World\r\n"`, `"0\r\n\r\n"`, produces exactly the
body `"Hello World"`: it reads a hex size line, exactly that many bytes,
skips the trailing CRLF and stops at the zero-size chunk. -/
theorem c9_chunked_roundtrip :
    decodeChunked (asciiBytes "5\r\nHello\r\n6\r\n World\r\n0\r\n\r\n") =
      some (asciiBytes "Hello World") := by
  decide

/-! ## Model of serde_json's `Value` as used by the stream processors
(network.rs 281-394)

`serde_json::from_str` itself is external library code and is passed to the
processors as an abstract `parse : String → Option JValue` parameter
(`none` = parse error).  Indexing (`value["key"]`, `value[0]`) returns the
field / element when the value is an object / array and `Value::Null`
otherwise, exactly like serde's `Index` impl.  `Value::to_string()` is
serde's compact `Display`: `null`, `true`/`false`, the integer, a quoted
JSON-escaped string, or bracketed recursion. -/

inductive JValue where
  | null : JValue
  | bool : Bool → JValue
  | num : Int → JValue
  | str : String → JValue
  | arr : List JValue → JValue
  | obj : List (String × JValue) → JValue

def hexDigitChar (n : Nat) : Char :=
  if n < 10 then Char.ofNat (48 + n) else Char.ofNat (87 + n)

/-- Model of serde's JSON string escaping: quote, backslash, the short control
escapes, and `\u00XX` (lowercase hex) for the remaining control bytes. -/
def jEscapeChar (c : Char) : List Char :=
  if c = '"' then ['\\', '"']
  else if c = '\\' then ['\\', '\\']
  else if c = '\n' then ['\\', 'n']
  else if c = '\r' then ['\\', 'r']
  else if c = '\t' then ['\\', 't']
  else if c.toNat = 8 then ['\\', 'b']
  else if c.toNat = 12 then ['\\', 'f']
  else if c.toNat < 32 then
    ['\\', 'u', '0', '0', hexDigitChar (c.toNat / 16), hexDigitChar (c.toNat % 16)]
  else [c]

def jEscape (s : String) : List Char :=
  s.data.flatMap jEscapeChar

mutual

def jToChars : JValue → List Char
  | JValue.null => ['n', 'u', 'l', 'l']
  | JValue.bool true => ['t', 'r', 'u', 'e']
  | JValue.bool false => ['f', 'a', 'l', 's', 'e']
  | JValue.num n => (toString n).data
  | JValue.str s => '"' :: jEscape s ++ ['"']
  | JValue.arr xs => '[' :: jArrChars xs ++ [']']
  | JValue.obj xs => '\x7b' :: jObjChars xs ++ ['\x7d']

def jArrChars : List JValue → List Char
  | [] => []
  | [x] => jToChars x
  | x :: y :: xs => jToChars x ++ ',' :: jArrChars (y :: xs)

def jObjChars : List (String × JValue) → List Char
  | [] => []
  | [p] => '"' :: jEscape p.1 ++ '"' :: ':' :: jToChars p.2
  | p :: q :: xs => ('"' :: jEscape p.1 ++ '"' :: ':' :: jToChars p.2) ++ ',' :: jObjChars (q :: xs)

end

/-- Model of `serde_json::Value::to_string()`. -/
def jToString (j : JValue) : String := String.mk (jToChars j)

/-- Model of `value["key"]` (serde's `Index<&str>`): field lookup on objects,
`Null` otherwise. -/
def jGet (j : JValue) (key : String) : JValue :=
  match j with
  | JValue.obj fields =>
    match fields.find? (fun p => p.1 == key) with
    | some p => p.2
    | none => JValue.null
  | _ => JValue.null

/-- Model of `value[i]` (serde's `Index<usize>`): element lookup on arrays,
`Null` otherwise. -/
def jIdx (j : JValue) (i : Nat) : JValue :=
  match j with
  | JValue.arr xs => xs.getD i JValue.null
  | _ => JValue.null

/-- Model of `value == "s"` (serde's `PartialEq<&str>`): true only for an equal
string value. -/
def jEqStr (j : JValue) (s : String) : Bool :=
  match j with
  | JValue.str t => t == s
  | _ => false

/-! ## Rust string primitives used by the processors -/

/-- Rust `str::replace`: replace all non-overlapping occurrences of `pat`,
scanning left to right.  Each round consumes at least one character, so
fuel equal to the string length never runs out. -/
def listReplaceGo : Nat → List Char → List Char → List Char → List Char
  | 0, s, _, _ => s
  | _ + 1, [], _, _ => []
  | fuel + 1, c :: cs, pat, rep =>
    if pat ≠ [] ∧ (c :: cs).take pat.length = pat then
      rep ++ listReplaceGo fuel ((c :: cs).drop pat.length) pat rep
    else c :: listReplaceGo fuel cs pat rep

def listReplace (s pat rep : List Char) : List Char :=
  listReplaceGo s.length s pat rep

/-- The unescape chain applied to every delta in both processors:
`.replace("\\n","\n").replace("\\\"","\"").replace("\\'","'").replace("\\\\","\\")`. -/
def unescapeDelta (s : String) : String :=
  String.mk
    (listReplace
      (listReplace
        (listReplace
          (listReplace s.data ['\\', 'n'] ['\n'])
          ['\\', '"'] ['"'])
        ['\\', '\x27'] ['\x27'])
      ['\\', '\\'] ['\\'])

/-- Model of `delta[1..delta.len() - 1]`: byte slicing that panics for `len < 2`
(modelled `none`).  Everywhere it is applied here the first and last
characters are ASCII (`"`, `n`/`l`, digits, brackets), where byte and char
slicing agree. -/
def stripEnds? (s : String) : Option String :=
  if s.data.length < 2 then none
  else some (String.mk ((s.data.drop 1).dropLast))

/-- Rust `str::starts_with` for an ASCII pattern. -/
def strStartsWith (s p : String) : Bool :=
  s.data.take p.data.length == p.data

/-- Model of `&s[n..]` for an all-ASCII prefix of length `n`. -/
def strDrop (n : Nat) (s : String) : String := String.mk (s.data.drop n)

def isRustWhitespace (c : Char) : Bool :=
  c = ' ' || c = '\t' || c = '\n' || c = '\r' ||
    c = '\x0b' || c = '\x0c'

/-- Rust `str::trim` (restricted to the ASCII whitespace the payloads
contain; `char::is_whitespace` agrees on ASCII). -/
def rustTrim (s : String) : String :=
  String.mk (((s.data.dropWhile isRustWhitespace).reverse.dropWhile
    isRustWhitespace).reverse)

/-! ## The streaming decoders (network.rs 281-394)

Both functions are modelled over the list of SSE lines delivered by
`read_line` after the response headers (the header loop and, for the
Anthropic decoder, the quirk of seeding `full_message` with the joined
headers, do not affect which deltas are parsed or sent).  The result pairs
the accumulated `full_message` with the list of deltas pushed through the
channel, in order.  A line is classified by a step function mirroring the
loop body, and the loop folds the steps. -/

/-- The path `response_json["choices"][0]["delta"]["content"]`, stringified,
unescaped and stripped of its first and last byte
(`process_openai_stream`, network.rs 316-324). -/
def openaiDelta (j : JValue) : Option String :=
  stripEnds? (unescapeDelta (jToString
    (jGet (jGet (jIdx (jGet j "choices") 0) "delta") "content")))

inductive OaiStep where
  | stop : OaiStep
  | skip : OaiStep
  | emit : String → OaiStep
  | panicked : OaiStep

/-- One iteration of the `process_openai_stream` loop (network.rs 298-333)
on one line.  A JSON parse failure is logged and replaced by
`serde_json::Value::Null` (`(parse payload).getD JValue.null`). -/
def openaiStep (parse : String → Option JValue) (line : String) : OaiStep :=
  if strStartsWith line "data: " then
    let payload := rustTrim (strDrop 6 line)
    if payload = "" ∨ payload = "[DONE]" then OaiStep.stop
    else
      match openaiDelta ((parse payload).getD JValue.null) with
      | none => OaiStep.panicked
      | some delta =>
        if delta ≠ "null" then OaiStep.emit delta else OaiStep.skip
  else OaiStep.skip

/-- Model of `process_openai_stream` (network.rs 281-336) over the post-header lines;
`some (full_message, deltas)` on success, `none` for a panic.  The Rust
function's `Result` is always `Ok` on this path. -/
def processOpenaiLines (parse : String → Option JValue) :
    List String → Option (String × List String)
  | [] => some ("", [])
  | line :: rest =>
    match openaiStep parse line with
    | OaiStep.stop => some ("", [])
    | OaiStep.skip => processOpenaiLines parse rest
    | OaiStep.emit d =>
      (processOpenaiLines parse rest).map (fun r => (d ++ r.1, d :: r.2))
    | OaiStep.panicked => none

/-- The path `response_json["delta"]["text"]`, stringified, unescaped and stripped
(`process_anthropic_stream`, network.rs 373-381). -/
def anthropicDelta (j : JValue) : Option String :=
  stripEnds? (unescapeDelta (jToString (jGet (jGet j "delta") "text")))

inductive AntStep where
  | stop : AntStep
  | skip : AntStep
  | emit : String → AntStep
  | parseErr : AntStep
  | panicked : AntStep

/-- One iteration of the `process_anthropic_stream` loop (network.rs
359-391).  Unlike the OpenAI decoder, a parse failure propagates with `?`
(`parseErr`); the delta is only extracted when the event's `type` equals
`content_block_delta`, otherwise the initial `"null"` marker survives and
the event is skipped. -/
def anthropicStep (parse : String → Option JValue) (line : String) : AntStep :=
  if strStartsWith line "event: message_stop" then AntStep.stop
  else if strStartsWith line "data: " then
    let payload := rustTrim (strDrop 6 line)
    if payload = "" ∨ payload = "[DONE]" then AntStep.stop
    else
      match parse payload with
      | none => AntStep.parseErr
      | some j =>
        if jEqStr (jGet j "type") "content_block_delta" then
          match anthropicDelta j with
          | none => AntStep.panicked
          | some delta =>
            if delta ≠ "null" then AntStep.emit delta else AntStep.skip
        else AntStep.skip
  else AntStep.skip

/-- Model of `process_anthropic_stream` (network.rs 338-394) over the post-header
lines; `some (Except.ok ..)` on success, `some (Except.error ())` when the
`?` on a parse failure aborts with `Err`, `none` for a panic. -/
def processAnthropicLines (parse : String → Option JValue) :
    List String → Option (Except Unit (String × List String))
  | [] => some (Except.ok ("", []))
  | line :: rest =>
    match anthropicStep parse line with
    | AntStep.stop => some (Except.ok ("", []))
    | AntStep.skip => processAnthropicLines parse rest
    | AntStep.emit d =>
      (processAnthropicLines parse rest).map
        (fun r => r.map (fun p => (d ++ p.1, d :: p.2)))
    | AntStep.parseErr => some (Except.error ())
    | AntStep.panicked => none

/-- A line starting with `"data: "` cannot also start with
`"event: message_stop"` (the prefixes disagree on their first characters). -/
theorem dataLine_not_stop (line : String)
    (h : strStartsWith line "data: " = true) :
    strStartsWith line "event: message_stop" = false := by
  unfold strStartsWith at h ⊢
  rw [beq_iff_eq] at h
  by_contra hc
  rw [Bool.not_eq_false, beq_iff_eq] at hc
  have hlen : ("data: ".data).length = 6 := by decide
  have h6 : line.data.take 6 = "data: ".data := by
    rw [← hlen]; exact h
  have hlen19 : ("event: message_stop".data).length = 19 := by decide
  have h19 : line.data.take 19 = "event: message_stop".data := by
    rw [← hlen19]; exact hc
  have htt : line.data.take 6 = ("event: message_stop".data).take 6 := by
    rw [← h19, List.take_take]
    norm_num
  rw [h6] at htt
  exact absurd htt (by decide)

/-- Evaluation of the four-step unescape chain on the literal `"null"`
produced for a missing / null delta: no escape sequences occur, and the
byte slice `[1..3]` leaves `"ul"`. -/
theorem openaiDelta_of_null : openaiDelta JValue.null = some "ul" := by
  decide

/-! ## Claim C3 -/

/-- Claim C3 counterexample: the claim covers the Anthropic-shaped decoder
too, but there a JSON parse failure on a single `data:` event aborts the
whole stream with `Err` (the `?` operator) instead of skipping the event
and returning success. -/
theorem c3_counterexample :
    processAnthropicLines (fun _ => none) ["data: x"] =
      some (Except.error ()) := by
  rfl

/-- Claim C3 (amended): for the OpenAI/Groq-shaped decoder a JSON parse
failure on one `data:` event does not abort the stream — the event's JSON is
replaced by `Value::Null`, whose stringified-and-stripped form is the
two-character string `"ul"`, which (being different from `"null"`) is
forwarded as a delta, and processing continues with the next line; the
Anthropic-shaped decoder instead aborts the whole stream with an error on
the first parse failure. -/
theorem c3_amended_parse_failure_semantics
    (parse : String → Option JValue) (line : String) (rest : List String)
    (h1 : strStartsWith line "data: " = true)
    (h2 : rustTrim (strDrop 6 line) ≠ "")
    (h3 : rustTrim (strDrop 6 line) ≠ "[DONE]")
    (h4 : parse (rustTrim (strDrop 6 line)) = none) :
    processOpenaiLines parse (line :: rest) =
      (processOpenaiLines parse rest).map (fun r => ("ul" ++ r.1, "ul" :: r.2)) ∧
    processAnthropicLines parse (line :: rest) = some (Except.error ()) := by
  constructor
  · have hstep : openaiStep parse line = OaiStep.emit "ul" := by
      unfold openaiStep
      rw [h1]
      simp only [if_true]
      rw [if_neg (by exact fun hor => hor.elim h2 h3)]
      rw [h4]
      simp only [Option.getD_none]
      rw [openaiDelta_of_null]
      simp
    simp [processOpenaiLines, hstep]
  · have hstep : anthropicStep parse line = AntStep.parseErr := by
      unfold anthropicStep
      rw [dataLine_not_stop line h1, h1]
      simp only [Bool.false_eq_true, if_false, if_true]
      rw [if_neg (by exact fun hor => hor.elim h2 h3)]
      rw [h4]
    simp [processAnthropicLines, hstep]

/-- Claim C3 witness: the amended theorem applied to the concrete malformed
event line `"data: x"` under a parser failing on `"x"`. -/
theorem c3_witness :
    (processOpenaiLines (fun _ => none) ["data: x"] =
      (processOpenaiLines (fun _ => none) []).map
        (fun r => ("ul" ++ r.1, "ul" :: r.2))) ∧
    processAnthropicLines (fun _ => none) ["data: x"] =
      some (Except.error ()) :=
  c3_amended_parse_failure_semantics (fun _ => none) "data: x" []
    (by decide) (by decide) (by decide) rfl

/-! ## Claim C8 -/

/-- Claim C8: once the Anthropic-shaped decoder reads a line beginning
`event: message_stop`, processing terminates at once — the result is the
same whatever `data:` lines remain after it in the buffer, so none of them
is ever parsed or forwarded. -/
theorem c8_stop_terminates (parse : String → Option JValue)
    (pre post : List String) (stopLine : String)
    (h : strStartsWith stopLine "event: message_stop" = true) :
    processAnthropicLines parse (pre ++ stopLine :: post) =
      processAnthropicLines parse (pre ++ [stopLine]) := by
  induction pre with
  | nil =>
    have hstep : anthropicStep parse stopLine = AntStep.stop := by
      unfold anthropicStep
      rw [h]
      simp
    simp [processAnthropicLines, hstep]
  | cons l pre ih =>
    simp only [List.cons_append, processAnthropicLines]
    cases hstep : anthropicStep parse l <;> simp [ih]

/-- Claim C8 witness: the theorem at a concrete buffer where a `data:` line
follows the stop event. -/
theorem c8_witness :
    processAnthropicLines (fun _ => none)
        (["foo"] ++ "event: message_stop" :: ["data: y"]) =
      processAnthropicLines (fun _ => none) (["foo"] ++ ["event: message_stop"]) :=
  c8_stop_terminates (fun _ => none) ["foo"] ["data: y"]
    "event: message_stop" (by decide)

/-! ## Claim C10 -/

/-- Claim C10: a successfully parsed event whose extracted, unescaped,
quote-stripped content text is exactly the four characters `null` is
silently discarded by both processors — not sent through the channel and
not appended to the accumulated message. -/
theorem c10_null_text_discarded
    (parse : String → Option JValue) (line : String) (rest : List String)
    (j : JValue)
    (h1 : strStartsWith line "data: " = true)
    (h2 : rustTrim (strDrop 6 line) ≠ "")
    (h3 : rustTrim (strDrop 6 line) ≠ "[DONE]")
    (h4 : parse (rustTrim (strDrop 6 line)) = some j)
    (h5 : openaiDelta j = some "null")
    (h6 : jEqStr (jGet j "type") "content_block_delta" = true →
      anthropicDelta j = some "null") :
    processOpenaiLines parse (line :: rest) = processOpenaiLines parse rest ∧
    processAnthropicLines parse (line :: rest) =
      processAnthropicLines parse rest := by
  constructor
  · have hstep : openaiStep parse line = OaiStep.skip := by
      unfold openaiStep
      rw [h1]
      simp only [if_true]
      rw [if_neg (by exact fun hor => hor.elim h2 h3)]
      rw [h4]
      simp [h5]
    simp [processOpenaiLines, hstep]
  · have hstep : anthropicStep parse line = AntStep.skip := by
      unfold anthropicStep
      rw [dataLine_not_stop line h1, h1]
      simp only [Bool.false_eq_true, if_false, if_true]
      rw [if_neg (by exact fun hor => hor.elim h2 h3)]
      rw [h4]
      by_cases ht : jEqStr (jGet j "type") "content_block_delta" = true
      · simp [ht, h6 ht]
      · simp [ht]
    simp [processAnthropicLines, hstep]

/-- A concrete parsed event carrying the literal text `"null"` in both the
OpenAI-shaped and the Anthropic-shaped positions. -/
def sampleNullJson : JValue :=
  JValue.obj
    [("choices", JValue.arr
        [JValue.obj [("delta", JValue.obj [("content", JValue.str "null")])]]),
     ("type", JValue.str "content_block_delta"),
     ("delta", JValue.obj [("text", JValue.str "null")])]

/-- Claim C10 witness: the theorem applied to a concrete event whose content
text is literally `null`. -/
theorem c10_witness :
    processOpenaiLines (fun _ => some sampleNullJson) ["data: x"] =
      processOpenaiLines (fun _ => some sampleNullJson) [] ∧
    processAnthropicLines (fun _ => some sampleNullJson) ["data: x"] =
      processAnthropicLines (fun _ => some sampleNullJson) [] :=
  c10_null_text_discarded (fun _ => some sampleNullJson) "data: x" []
    sampleNullJson (by decide) (by decide) (by decide) rfl
    (by decide) (fun _ => by decide)

end Tllm
